import Mathlib

/-!
Verification development for the `multi-api-mocker` library.

This file gives a shallow embedding, in Lean, of the parts of the library
that the specification talks about:

* `multi_api_mocker/definitions.py` — the `MockAPIResponse` class: its
  constructor, its computed properties (`status_code`, `json`, `text`,
  `exc`), and the declaration-time validation of class attributes
  (`__init_subclass__` / `validate_class_attributes`);
* `multi_api_mocker/models.py` — the `ResponseKwargs` and
  `MockConfiguration` dataclasses and `ResponseKwargs.to_dict`;
* `multi_api_mocker/http_utils.py` — `group_by_url`, `add_mock_to_group`
  and the `RequestsMockSet` collection class;
* `multi_api_mocker/utils.py` — the legacy flat `group_by_url`.

Modelling conventions:

* Python values that can appear as JSON bodies are modelled by `PyVal`;
  Python dicts become association lists in insertion order, which is how
  CPython dicts behave observably (insertion-ordered keys, value update
  in place preserves key position).
* `None`-able Python attributes become `Option`s.
* Python exceptions raised by the embedded code become `Except.error`
  with the exception's message; a raised `KeyError` from a dict lookup
  is modelled by an `Option` result where `none` stands for the raise.
* The one piece of mutable state the library touches is the class-level
  `default_json` attribute (the `json` property calls `dict.update` on
  the object returned by `_default_json`, which aliases the class
  attribute).  Classes therefore live in an explicit environment
  `ClassEnv : Nat → MockClass`, instances point into it by index, and
  every operation that may run the `json` property threads the
  environment through.
* Python truthiness is modelled where the source relies on it:
  `x or y` on strings treats `None` and `""` as falsy, on ints treats
  `None` and `0` as falsy; `elif self._partial_json:` treats `None` and
  the empty dict as falsy.
-/

/-- A Python value as used for JSON bodies. Dicts are association lists
in insertion order, matching observable CPython dict behaviour. -/
inductive PyVal where
  | vNone
  | int (n : Int)
  | str (s : String)
  | bool (b : Bool)
  | dict (entries : List (String × PyVal))
  | arr (xs : List PyVal)

/-- An opaque Python exception (class or instance); the library only
passes these around, so a tag naming the exception suffices. -/
structure PyExc where
  tag : String
deriving DecidableEq

/-- Association-list lookup, the embedding of `d[k]` / `d.get(k)` on a
Python dict represented as an insertion-ordered association list. -/
def alookup {α β : Type} [DecidableEq α] : List (α × β) → α → Option β
  | [], _ => none
  | (k0, v) :: rest, k => if k0 = k then some v else alookup rest k

/-- Embedding of Python `d.update(overlay)`: keys already in `d` keep
their position and get the overlay's value; new keys are appended in
overlay order. -/
def dictUpdate (d overlay : List (String × PyVal)) : List (String × PyVal) :=
  (d.map (fun kv =>
    match alookup overlay kv.1 with
    | some v => (kv.1, v)
    | none => kv))
  ++ overlay.filter (fun kv => (alookup d kv.1).isNone)

/-- The class-level attributes of a `MockAPIResponse` subtype
(`definitions.py` lines 44–50), plus the class `__name__`. -/
structure MockClass where
  name : String
  url : Option String
  method : Option String
  endpoint_name : Option String
  default_status_code : Option Int
  default_json : Option PyVal
  default_text : Option String
  default_exc : Option PyExc

/-- The environment of declared subtypes; instances refer to their class
by index.  Mutation of a class attribute is an update of this map. -/
abbrev ClassEnv : Type := Nat → MockClass

/-- Pointwise update of the class environment (the effect of mutating a
class-level attribute of one class). -/
def setCls (env : ClassEnv) (i : Nat) (c : MockClass) : ClassEnv :=
  fun j => if j = i then c else env j

/-- The instance attributes set by `MockAPIResponse.__init__`
(`definitions.py` lines 88–98). -/
structure MockInst where
  clsId : Nat
  url : Option String
  method : Option String
  endpoint_name : Option String
  _status_code : Option Int
  _partial_json : Option (List (String × PyVal))
  _json : Option PyVal
  _text : Option String
  _exc : Option PyExc

/-- Python `a or b` on string-or-None operands: `None` and `""` are
falsy, and the value of the expression is the second operand then. -/
def pyOrStr : Option String → Option String → Option String
  | some s, b => if s = "" then b else some s
  | none, b => b

/-- `MockAPIResponse.__init__` (`definitions.py` lines 52–98): resolves
`url`, `method` and `endpoint_name` by Python `or` against the class
attributes (and the class name), and stores the remaining arguments raw
in the private instance attributes. -/
def MockAPIResponse.init (env : ClassEnv) (clsId : Nat)
    (url : Option String) (method : Option String) (status_code : Option Int)
    (json : Option PyVal) (partial_json : Option (List (String × PyVal)))
    (text : Option String) (endpoint_name : Option String)
    (exc : Option PyExc) : MockInst :=
  let cls := env clsId
  { clsId := clsId
    url := pyOrStr url cls.url
    method := pyOrStr method cls.method
    endpoint_name := pyOrStr (pyOrStr endpoint_name cls.endpoint_name) (some cls.name)
    _status_code := status_code
    _partial_json := partial_json
    _json := json
    _text := text
    _exc := exc }

/-- The `status_code` property (`definitions.py` lines 152–154):
`self._status_code or self.__class__.default_status_code`.  Python `or`
on an int treats `None` and `0` as falsy. -/
def MockInst.status_code (env : ClassEnv) (m : MockInst) : Option Int :=
  match m._status_code with
  | some n => if n = 0 then (env m.clsId).default_status_code else some n
  | none => (env m.clsId).default_status_code

/-- The `text` property (`definitions.py` lines 166–170): the explicit
`_text` if it `is not None`, else `_default_text`, which returns the
class-level `default_text`. -/
def MockInst.text (env : ClassEnv) (m : MockInst) : Option String :=
  match m._text with
  | some t => some t
  | none => (env m.clsId).default_text

/-- The `exc` property (`definitions.py` lines 172–174):
`self._exc or self.__class__.default_exc`; exception objects are always
truthy in Python. -/
def MockInst.exc (env : ClassEnv) (m : MockInst) : Option PyExc :=
  match m._exc with
  | some e => some e
  | none => (env m.clsId).default_exc

/-- `_default_json` (`definitions.py` lines 176–177): returns
`self.default_json`, i.e. the class-level attribute itself, NOT a copy.
The returned value aliases the class attribute. -/
def MockInst._default_json (env : ClassEnv) (m : MockInst)
    (_statusCode : Option Int) : Option PyVal :=
  (env m.clsId).default_json

/-- The `json` property (`definitions.py` lines 156–164).  When a
partial overlay is truthy (non-`None` and non-empty) the property calls
`default.update(self._partial_json)` where `default` aliases the
class-level `default_json`; the update therefore mutates the class
attribute, which is why the result carries an updated `ClassEnv`.
`update` on a non-dict (including `None`) raises `AttributeError`. -/
def MockInst.json (env : ClassEnv) (m : MockInst) :
    Except String (Option PyVal × ClassEnv) :=
  match m._json with
  | some j => Except.ok (some j, env)
  | none =>
    match m._partial_json with
    | some [] =>
      Except.ok (MockInst._default_json env m (MockInst.status_code env m), env)
    | some overlay =>
        match MockInst._default_json env m (MockInst.status_code env m) with
        | some (PyVal.dict d) =>
          let merged := PyVal.dict (dictUpdate d overlay)
          Except.ok (some merged,
            setCls env m.clsId { env m.clsId with default_json := some merged })
        | some _ => Except.error "AttributeError: update on non-dict default_json"
        | none => Except.error "AttributeError: NoneType has no attribute update"
    | none =>
      Except.ok (MockInst._default_json env m (MockInst.status_code env m), env)

/-- The `ResponseKwargs` dataclass (`models.py` lines 13–18). -/
structure ResponseKwargs where
  text : Option String
  status_code : Option Int
  json : Option PyVal
  exc : Option PyExc

/-- A value stored in the dict produced by `ResponseKwargs.to_dict`;
the four fields have four different Python types. -/
inductive PayloadVal where
  | ofText (v : String)
  | ofStatus (v : Int)
  | ofJson (v : PyVal)
  | ofExc (v : PyExc)

/-- `ResponseKwargs.to_dict` (`models.py` lines 20–25): the dict of the
dataclass fields, in field order, with `None` values filtered out. -/
def ResponseKwargs.to_dict (r : ResponseKwargs) : List (String × PayloadVal) :=
  (match r.text with
   | some t => [("text", PayloadVal.ofText t)]
   | none => []) ++
  (match r.status_code with
   | some n => [("status_code", PayloadVal.ofStatus n)]
   | none => []) ++
  (match r.json with
   | some v => [("json", PayloadVal.ofJson v)]
   | none => []) ++
  (match r.exc with
   | some e => [("exc", PayloadVal.ofExc e)]
   | none => [])

/-- The grouping key `(mock.url, mock.method)` used by
`add_mock_to_group`. -/
abbrev GroupKey : Type := Option String × Option String

/-- The `grouped_mocks` defaultdict: an insertion-ordered map from group
key to the list of payloads appended for that key. -/
abbrev Groups : Type := List (GroupKey × List ResponseKwargs)

/-- `grouped_mocks[(url, method)].append(kwargs)` on a
`defaultdict(list)`: appends to the existing key's list in place (the
key keeps its position), or adds a new key at the end. -/
def pushGroup : Groups → GroupKey → ResponseKwargs → Groups
  | [], k, v => [(k, [v])]
  | (k0, vs) :: rest, k, v =>
    if k0 = k then (k0, vs ++ [v]) :: rest else (k0, vs) :: pushGroup rest k v

/-- Looking a key up in `grouped_mocks`; absent keys read as `[]`
(defaultdict view, used only in specification statements). -/
def lookupGroup : Groups → GroupKey → List ResponseKwargs
  | [], _ => []
  | (k0, vs) :: rest, k => if k0 = k then vs else lookupGroup rest k

/-- The `ResponseKwargs(...)` construction inside `add_mock_to_group`
(`http_utils.py` lines 125–130): each field is `None` when `mock.exc`
is truthy; evaluating `mock.json` may mutate the class environment, so
the result threads it.  `mock.text` and `mock.status_code` are
evaluated before `mock.json`, in source order. -/
def mkPayload (env : ClassEnv) (mock : MockInst) :
    Except String (ResponseKwargs × ClassEnv) :=
  match MockInst.exc env mock with
  | some e =>
    Except.ok ({ text := none, status_code := none, json := none, exc := some e }, env)
  | none =>
    let t := MockInst.text env mock
    let sc := MockInst.status_code env mock
    match MockInst.json env mock with
    | Except.ok (j, env') =>
      Except.ok ({ text := t, status_code := sc, json := j, exc := none }, env')
    | Except.error e => Except.error e

/-- `add_mock_to_group` (`http_utils.py` lines 124–131): builds the
`ResponseKwargs` for `mock` and appends it to the group keyed by
`(mock.url, mock.method)`. -/
def add_mock_to_group (env : ClassEnv) (grouped_mocks : Groups)
    (mock : MockInst) : Except String (Groups × ClassEnv) :=
  match mkPayload env mock with
  | Except.ok (response_kwargs, env') =>
    Except.ok (pushGroup grouped_mocks (mock.url, mock.method) response_kwargs, env')
  | Except.error e => Except.error e

/-- An element of the list passed to `http_utils.group_by_url`: a
`MockAPIResponse`, a Python list of further elements, or a value of any
other type (carrying the rendering of its type for the error message). -/
inductive PyElem where
  | resp (m : MockInst)
  | listE (ns : List PyElem)
  | other (tyRepr : String)

/-- The rendering of `type(x)` used in the `ValueError` message of
`group_by_url`. -/
def PyElem.typeRepr : PyElem → String
  | PyElem.resp _ => "MockAPIResponse"
  | PyElem.listE _ => "list"
  | PyElem.other t => t

/-- Whether the element is a `MockAPIResponse` (Python
`isinstance(x, MockAPIResponse)`). -/
def PyElem.isResp : PyElem → Bool
  | PyElem.resp _ => true
  | _ => false

/-- The inner `for nested_mock_definition in mock_definition:` loop of
`group_by_url` (`http_utils.py` lines 100–107): each nested element
must be a `MockAPIResponse`, otherwise a `ValueError` naming its type
is raised. -/
def groupLoopNested : ClassEnv → Groups → List PyElem →
    Except String (Groups × ClassEnv)
  | env, g, [] => Except.ok (g, env)
  | env, g, PyElem.resp m :: rest =>
    match add_mock_to_group env g m with
    | Except.ok (g', env') => groupLoopNested env' g' rest
    | Except.error e => Except.error e
  | _, _, bad :: _ =>
    Except.error ("Unsupported mock definition type: " ++ PyElem.typeRepr bad)

/-- The outer `for mock_definition in api_mocks:` loop of
`group_by_url` (`http_utils.py` lines 98–113). -/
def groupLoop : ClassEnv → Groups → List PyElem →
    Except String (Groups × ClassEnv)
  | env, g, [] => Except.ok (g, env)
  | env, g, PyElem.listE ns :: rest =>
    match groupLoopNested env g ns with
    | Except.ok (g', env') => groupLoop env' g' rest
    | Except.error e => Except.error e
  | env, g, PyElem.resp m :: rest =>
    match add_mock_to_group env g m with
    | Except.ok (g', env') => groupLoop env' g' rest
    | Except.error e => Except.error e
  | _, _, PyElem.other t :: _ =>
    Except.error ("Unsupported mock definition type: " ++ t)

/-- The `MockConfiguration` dataclass (`models.py` lines 6–10). -/
structure MockConfiguration where
  url : Option String
  method : String
  responses : List (List (String × PayloadVal))

/-- The embedding of Python `str.upper()` (ASCII case mapping),
character by character over the string's contents. -/
def strUpper (s : String) : String := ⟨s.data.map Char.toUpper⟩

/-- The output loop shared verbatim by `http_utils.group_by_url`
(lines 115–121) and `utils.group_by_url` (lines 105–111): one
`MockConfiguration` per group, in the dict's insertion order, with
`method.upper()` (which raises `AttributeError` on a `None` method)
and each `ResponseKwargs` converted by `to_dict`. -/
def buildOutput : Groups → Except String (List MockConfiguration)
  | [] => Except.ok []
  | ((url, some method), kwargs_list) :: rest =>
    match buildOutput rest with
    | Except.ok out =>
      Except.ok ({ url := url, method := strUpper method,
                   responses := kwargs_list.map ResponseKwargs.to_dict } :: out)
    | Except.error e => Except.error e
  | ((_, none), _) :: _ =>
    Except.error "AttributeError: NoneType has no attribute upper"

namespace HttpUtils

/-- `http_utils.group_by_url` (lines 74–121): run the grouping loop over
the (possibly one-level-nested) input, then build the output records. -/
def group_by_url (env : ClassEnv) (api_mocks : List PyElem) :
    Except String (List MockConfiguration × ClassEnv) :=
  match groupLoop env [] api_mocks with
  | Except.ok (grouped_mocks, env') =>
    match buildOutput grouped_mocks with
    | Except.ok output => Except.ok (output, env')
    | Except.error e => Except.error e
  | Except.error e => Except.error e

end HttpUtils

namespace Utils

/-- The `for mock in api_mocks:` loop of the legacy `utils.group_by_url`
(`utils.py` lines 92–103), with the `ResponseKwargs` construction
inlined exactly as in that source. -/
def groupLoop : ClassEnv → Groups → List MockInst →
    Except String (Groups × ClassEnv)
  | env, g, [] => Except.ok (g, env)
  | env, g, mock :: rest =>
    match MockInst.exc env mock with
    | some e =>
      groupLoop env
        (pushGroup g (mock.url, mock.method)
          { text := none, status_code := none, json := none, exc := some e }) rest
    | none =>
      let t := MockInst.text env mock
      let sc := MockInst.status_code env mock
      match MockInst.json env mock with
      | Except.ok (j, env') =>
        groupLoop env'
          (pushGroup g (mock.url, mock.method)
            { text := t, status_code := sc, json := j, exc := none }) rest
      | Except.error e => Except.error e

/-- The legacy `utils.group_by_url` (lines 73–112): a flat input list,
the same per-mock payload construction, and the same output loop. -/
def group_by_url (env : ClassEnv) (api_mocks : List MockInst) :
    Except String (List MockConfiguration × ClassEnv) :=
  match groupLoop env [] api_mocks with
  | Except.ok (grouped_mocks, env') =>
    match buildOutput grouped_mocks with
    | Except.ok output => Except.ok (output, env')
    | Except.error e => Except.error e
  | Except.error e => Except.error e

end Utils

/-- A Python type appearing in `expected_class_attribute_types` of
`validate_class_attributes` (`definitions.py` lines 112–118). -/
inductive PyType where
  | tStr
  | tInt
  | tPattern
  | tNone
deriving DecidableEq

/-- The `__name__` of a `PyType`, as used in the error message. -/
def PyType.pyName : PyType → String
  | PyType.tStr => "str"
  | PyType.tInt => "int"
  | PyType.tPattern => "Pattern"
  | PyType.tNone => "NoneType"

/-- A value a class-level attribute can hold in a subtype declaration:
`None`, a string, an int, a compiled pattern, an exception class, an
exception instance, or a value of some other type (carrying the type's
`__name__` and its `str()` rendering for the error message). -/
inductive AttrVal where
  | vNone
  | vStr (s : String)
  | vInt (n : Int)
  | vPattern (p : String)
  | vExcClass (e : String)
  | vExcInst (e : String)
  | vOther (tyName : String) (rendered : String)
deriving DecidableEq

/-- `type(value).__name__` for an attribute value (an exception class is
itself of type `type`; an exception instance is of its class's type). -/
def AttrVal.pyTypeName : AttrVal → String
  | AttrVal.vNone => "NoneType"
  | AttrVal.vStr _ => "str"
  | AttrVal.vInt _ => "int"
  | AttrVal.vPattern _ => "Pattern"
  | AttrVal.vExcClass _ => "type"
  | AttrVal.vExcInst e => e
  | AttrVal.vOther t _ => t

/-- `str(value)` as interpolated by the f-string of the error message. -/
def AttrVal.pyStr : AttrVal → String
  | AttrVal.vNone => "None"
  | AttrVal.vStr s => s
  | AttrVal.vInt n => toString n
  | AttrVal.vPattern p => "re.compile(" ++ p ++ ")"
  | AttrVal.vExcClass e => "<class " ++ e ++ ">"
  | AttrVal.vExcInst e => e
  | AttrVal.vOther _ r => r

/-- `isinstance(value, t)` for a single expected type. -/
def isinstance1 : AttrVal → PyType → Bool
  | AttrVal.vStr _, PyType.tStr => true
  | AttrVal.vInt _, PyType.tInt => true
  | AttrVal.vPattern _, PyType.tPattern => true
  | AttrVal.vNone, PyType.tNone => true
  | _, _ => false

/-- `isinstance(value, expected_types)` for a tuple of expected types. -/
def isinstance (v : AttrVal) (tys : List PyType) : Bool :=
  tys.any (fun t => isinstance1 v t)

/-- The class-level attribute values a subtype declares, plus the
declared class's `__name__` (the raw material `validate_class_attributes`
inspects via `getattr`). -/
structure RawClass where
  name : String
  url : AttrVal
  method : AttrVal
  endpoint_name : AttrVal
  default_status_code : AttrVal
  default_text : AttrVal
  default_exc : AttrVal
deriving DecidableEq

/-- `getattr(cls, attr, None)` for the attribute names the validator
uses. -/
def RawClass.getattr (cls : RawClass) : String → AttrVal
  | "url" => cls.url
  | "method" => cls.method
  | "endpoint_name" => cls.endpoint_name
  | "default_status_code" => cls.default_status_code
  | "default_text" => cls.default_text
  | "default_exc" => cls.default_exc
  | _ => AttrVal.vNone

/-- The `expected_class_attribute_types` dict literal
(`definitions.py` lines 112–118), in its (insertion-ordered) iteration
order. -/
def expected_class_attribute_types : List (String × List PyType) :=
  [("url", [PyType.tStr, PyType.tPattern]),
   ("method", [PyType.tStr]),
   ("endpoint_name", [PyType.tStr]),
   ("default_status_code", [PyType.tInt, PyType.tNone]),
   ("default_text", [PyType.tStr, PyType.tNone])]

/-- The `expected_type_names` list comprehension plus the `"None"`
append (`definitions.py` lines 123–129). -/
def expectedTypeNames (tys : List PyType) : List String :=
  (tys.filter (fun t => t ≠ PyType.tNone)).map PyType.pyName ++
  (if PyType.tNone ∈ tys then ["None"] else [])

/-- The `TypeError` message f-string of `validate_class_attributes`
(`definitions.py` lines 132–136). -/
def mkTypeErrorMsg (attr clsName : String) (expected : List PyType)
    (value : AttrVal) : String :=
  "The `" ++ attr ++ "` attribute in subclass `" ++ clsName ++
  "` must be of type `" ++ String.intercalate ", " (expectedTypeNames expected) ++
  "`, got `" ++ AttrVal.pyTypeName value ++ "`: `" ++ AttrVal.pyStr value ++ "`."

/-- The `for attr, expected_types in ...items():` loop of
`validate_class_attributes` (`definitions.py` lines 120–137): raises on
the first attribute whose value is neither an instance of an expected
type nor `None`. -/
def validateAttrs (cls : RawClass) :
    List (String × List PyType) → Except String Unit
  | [] => Except.ok ()
  | (attr, expected) :: rest =>
    let value := RawClass.getattr cls attr
    if isinstance value expected = false ∧ value ≠ AttrVal.vNone then
      Except.error (mkTypeErrorMsg attr cls.name expected value)
    else validateAttrs cls rest

/-- Whether `default_exc` passes its separate check
(`definitions.py` lines 141–145): an exception class or an exception
instance. -/
def isExcOk : AttrVal → Bool
  | AttrVal.vExcClass _ => true
  | AttrVal.vExcInst _ => true
  | _ => false

/-- `validate_class_attributes` (`definitions.py` lines 110–150): the
typed-attribute loop followed by the separate `default_exc` check. -/
def validate_class_attributes (cls : RawClass) : Except String Unit :=
  match validateAttrs cls expected_class_attribute_types with
  | Except.error e => Except.error e
  | Except.ok _ =>
    let value := cls.default_exc
    if value ≠ AttrVal.vNone ∧ isExcOk value = false then
      Except.error
        ("The `default_exc` attribute in subclass `" ++ cls.name ++
         "` must be a subclass or instance of Exception or None, got `" ++
         AttrVal.pyTypeName value ++ "`: `" ++ AttrVal.pyStr value ++ "`.")
    else Except.ok ()

/-- `__init_subclass__` (`definitions.py` lines 106–108): runs
`validate_class_attributes` once, at the moment the subtype is declared;
a declaration either yields the class or raises.  Instantiation
(`MockAPIResponse.init`) performs no validation. -/
def initSubclass (cls : RawClass) : Except String RawClass :=
  match validate_class_attributes cls with
  | Except.ok _ => Except.ok cls
  | Except.error e => Except.error e

/-- Python `dict` insert (`d[k] = v` or a dict comprehension step):
an existing key keeps its position and gets the new value; a new key is
appended. -/
def dictInsert {α β : Type} [DecidableEq α] :
    List (α × β) → α → β → List (α × β)
  | [], k, v => [(k, v)]
  | (k0, v0) :: rest, k, v =>
    if k0 = k then (k0, v) :: rest else (k0, v0) :: dictInsert rest k v

/-- The `RequestsMockSet` collection (`http_utils.py` lines 12–71):
`_response_registry` is the dict comprehension
`{response.endpoint_name: response for response in api_responses}` and
`matchers` maps endpoint names to opaque backend handles. -/
structure RequestsMockSet where
  response_registry : List (Option String × MockInst)
  matchers : List (Option String × String)

/-- The `RequestsMockSet` constructor (`http_utils.py` lines 45–55). -/
def RequestsMockSet.mkSet (api_responses : List MockInst)
    (matchers : List (Option String × String)) : RequestsMockSet :=
  { response_registry :=
      api_responses.foldl (fun reg r => dictInsert reg r.endpoint_name r) []
    matchers := matchers }

/-- `__getitem__` (`http_utils.py` lines 57–58): a plain dict lookup;
`none` models the `KeyError` raised for an absent endpoint name. -/
def RequestsMockSet.getitem (s : RequestsMockSet)
    (endpoint_name : Option String) : Option MockInst :=
  alookup s.response_registry endpoint_name

/-- `__iter__` (`http_utils.py` lines 60–61): iterates the registry
dict's values in insertion order. -/
def RequestsMockSet.iterate (s : RequestsMockSet) : List MockInst :=
  s.response_registry.map Prod.snd

/-- `get_matcher` (`http_utils.py` lines 70–71): `self.matchers.get(...)`,
which returns `None` for an absent key instead of raising. -/
def RequestsMockSet.get_matcher (s : RequestsMockSet)
    (endpoint_name : Option String) : Option String :=
  alookup s.matchers endpoint_name

/-! ## Specification-side helpers

The following definitions are not part of the source; they are the
vocabulary in which the claims about `group_by_url` are stated
(flattening of the one-level-nested input, the per-definition payload
trace, first-seen key order). -/

/-- Flattening of the nested part of a `group_by_url` input: succeeds
only when every nested element is a `MockAPIResponse`. -/
def flattenNested : List PyElem → Option (List MockInst)
  | [] => some []
  | PyElem.resp m :: rest => (flattenNested rest).map (fun ms => m :: ms)
  | _ :: _ => none

/-- Flattening of a `group_by_url` input: definitions stay, one level of
nested lists is spliced in place, anything else makes the input
invalid. -/
def flattenElems : List PyElem → Option (List MockInst)
  | [] => some []
  | PyElem.resp m :: rest => (flattenElems rest).map (fun ms => m :: ms)
  | PyElem.listE ns :: rest =>
    match flattenNested ns, flattenElems rest with
    | some ms, some rest' => some (ms ++ rest')
    | _, _ => none
  | PyElem.other _ :: _ => none

/-- The grouping loop over an already-flattened list of definitions
(this is also, verbatim, the shape of the legacy `utils.py` loop). -/
def groupLoopFlat : ClassEnv → Groups → List MockInst →
    Except String (Groups × ClassEnv)
  | env, g, [] => Except.ok (g, env)
  | env, g, m :: rest =>
    match add_mock_to_group env g m with
    | Except.ok (g', env') => groupLoopFlat env' g' rest
    | Except.error e => Except.error e

/-- The sequence of `(group key, payload)` pairs produced for a list of
definitions, in input order, threading the class environment exactly as
the grouping loop does. -/
def payloadTrace : ClassEnv → List MockInst →
    Except String (List (GroupKey × ResponseKwargs) × ClassEnv)
  | env, [] => Except.ok ([], env)
  | env, m :: rest =>
    match mkPayload env m with
    | Except.ok (p, env') =>
      match payloadTrace env' rest with
      | Except.ok (tr, envf) => Except.ok (((m.url, m.method), p) :: tr, envf)
      | Except.error e => Except.error e
    | Except.error e => Except.error e

/-- Replaying a trace of `(key, payload)` pairs into a group map. -/
def foldPushAll : Groups → List (GroupKey × ResponseKwargs) → Groups
  | g, [] => g
  | g, e :: tr => foldPushAll (pushGroup g e.1 e.2) tr

/-- The keys of a group map after pushing a sequence of keys, starting
from an existing key list: a fresh key is appended, a seen key changes
nothing. -/
def addKeys (K : List GroupKey) : List GroupKey → List GroupKey
  | [] => K
  | k :: ks => addKeys (if k ∈ K then K else K ++ [k]) ks

/-- The distinct elements of a list in order of first occurrence. -/
def firstSeen : List GroupKey → List GroupKey
  | [] => []
  | k :: ks => k :: (firstSeen ks).filter (fun q => q ≠ k)

/-! ## Lemmas about the group map -/

theorem lookupGroup_pushGroup (g : Groups) (k q : GroupKey) (p : ResponseKwargs) :
    lookupGroup (pushGroup g k p) q =
      if k = q then lookupGroup g q ++ [p] else lookupGroup g q := by
  induction g with
  | nil =>
    by_cases hkq : k = q
    · subst hkq; simp [pushGroup, lookupGroup]
    · simp [pushGroup, lookupGroup, hkq]
  | cons hd tl ih =>
    obtain ⟨k0, vs⟩ := hd
    by_cases h0 : k0 = k
    · subst h0
      by_cases hkq : k0 = q
      · subst hkq; simp [pushGroup, lookupGroup]
      · simp [pushGroup, lookupGroup, hkq]
    · by_cases hq : k0 = q
      · subst hq
        have hk : k ≠ k0 := fun h => h0 h.symm
        simp [pushGroup, lookupGroup, h0, if_neg hk]
      · simp [pushGroup, lookupGroup, h0, hq, ih]

theorem keys_pushGroup (g : Groups) (k : GroupKey) (p : ResponseKwargs) :
    (pushGroup g k p).map Prod.fst =
      if k ∈ g.map Prod.fst then g.map Prod.fst else g.map Prod.fst ++ [k] := by
  induction g with
  | nil => simp [pushGroup]
  | cons hd tl ih =>
    obtain ⟨k0, vs⟩ := hd
    by_cases h0 : k0 = k
    · subst h0; simp [pushGroup]
    · have h0' : k ≠ k0 := fun h => h0 h.symm
      simp only [pushGroup, if_neg h0, List.map_cons, ih]
      by_cases hmem : k ∈ tl.map Prod.fst
      · simp [hmem]
      · simp [hmem, h0']

theorem lookupGroup_foldPushAll (tr : List (GroupKey × ResponseKwargs))
    (g : Groups) (q : GroupKey) :
    lookupGroup (foldPushAll g tr) q =
      lookupGroup g q ++ (tr.filter (fun e => decide (e.1 = q))).map Prod.snd := by
  induction tr generalizing g with
  | nil => simp [foldPushAll]
  | cons e tr ih =>
    obtain ⟨k, p⟩ := e
    by_cases hkq : k = q
    · subst hkq
      simp [foldPushAll, ih, lookupGroup_pushGroup, List.filter_cons]
    · simp [foldPushAll, ih, lookupGroup_pushGroup, hkq, List.filter_cons]

theorem keys_foldPushAll (tr : List (GroupKey × ResponseKwargs)) (g : Groups) :
    (foldPushAll g tr).map Prod.fst =
      addKeys (g.map Prod.fst) (tr.map Prod.fst) := by
  induction tr generalizing g with
  | nil => simp [foldPushAll, addKeys]
  | cons e tr ih =>
    obtain ⟨k, p⟩ := e
    simp only [foldPushAll, List.map_cons, addKeys, ih, keys_pushGroup]

theorem addKeys_eq (ks : List GroupKey) (K : List GroupKey) :
    addKeys K ks = K ++ (firstSeen ks).filter (fun q => decide (q ∉ K)) := by
  induction ks generalizing K with
  | nil => simp [addKeys, firstSeen]
  | cons k ks ih =>
    by_cases hk : k ∈ K
    · rw [addKeys, if_pos hk, ih, firstSeen,
        List.filter_cons_of_neg (by simpa using hk), List.filter_filter]
      congr 1
      apply List.filter_congr
      intro q _
      by_cases hqK : q ∈ K
      · simp [hqK]
      · simp [hqK, show q ≠ k from fun he => hqK (he ▸ hk)]
    · rw [addKeys, if_neg hk, ih, firstSeen,
        List.filter_cons_of_pos (by simpa using hk), List.filter_filter,
        List.append_assoc, List.singleton_append]
      congr 2
      apply List.filter_congr
      intro q _
      by_cases h1 : q = k
      · simp [h1]
      · by_cases h2 : q ∈ K <;> simp [h1, h2]

/-! ## Lemmas about the grouping loops -/

theorem groupLoopFlat_append (a b : List MockInst) (env : ClassEnv) (g : Groups) :
    groupLoopFlat env g (a ++ b) =
      match groupLoopFlat env g a with
      | Except.ok (g', env') => groupLoopFlat env' g' b
      | Except.error e => Except.error e := by
  induction a generalizing env g with
  | nil => simp [groupLoopFlat]
  | cons m rest ih =>
    simp only [List.cons_append, groupLoopFlat]
    cases add_mock_to_group env g m with
    | ok r => obtain ⟨g', env'⟩ := r; simpa using ih env' g'
    | error e => simp

theorem groupLoopNested_of_flatten (ns : List PyElem) (ms : List MockInst)
    (env : ClassEnv) (g : Groups) (h : flattenNested ns = some ms) :
    groupLoopNested env g ns = groupLoopFlat env g ms := by
  induction ns generalizing ms env g with
  | nil =>
    simp only [flattenNested, Option.some.injEq] at h
    subst h; rfl
  | cons e rest ih =>
    cases e with
    | resp m =>
      simp only [flattenNested] at h
      cases hrest : flattenNested rest with
      | none => rw [hrest] at h; simp at h
      | some ms' =>
        rw [hrest] at h
        simp at h
        subst h
        simp only [groupLoopNested, groupLoopFlat]
        cases add_mock_to_group env g m with
        | ok r => obtain ⟨g', env'⟩ := r; simpa using ih ms' env' g' hrest
        | error e => simp
    | listE ns' => simp [flattenNested] at h
    | other t => simp [flattenNested] at h

theorem groupLoop_of_flatten (elems : List PyElem) (ms : List MockInst)
    (env : ClassEnv) (g : Groups) (h : flattenElems elems = some ms) :
    groupLoop env g elems = groupLoopFlat env g ms := by
  induction elems generalizing ms env g with
  | nil =>
    simp only [flattenElems, Option.some.injEq] at h
    subst h; rfl
  | cons e rest ih =>
    cases e with
    | resp m =>
      simp only [flattenElems] at h
      cases hrest : flattenElems rest with
      | none => rw [hrest] at h; simp at h
      | some ms' =>
        rw [hrest] at h
        simp at h
        subst h
        simp only [groupLoop, groupLoopFlat]
        cases add_mock_to_group env g m with
        | ok r => obtain ⟨g', env'⟩ := r; simpa using ih ms' env' g' hrest
        | error e => simp
    | listE ns =>
      simp only [flattenElems] at h
      cases hns : flattenNested ns with
      | none => rw [hns] at h; simp at h
      | some ms1 =>
        cases hrest : flattenElems rest with
        | none => rw [hns, hrest] at h; simp at h
        | some ms2 =>
          rw [hns, hrest] at h
          simp only [Option.some.injEq] at h
          subst h
          rw [groupLoopFlat_append]
          simp only [groupLoop]
          rw [groupLoopNested_of_flatten ns ms1 env g hns]
          cases groupLoopFlat env g ms1 with
          | ok r => obtain ⟨g', env'⟩ := r; simpa using ih ms2 env' g' hrest
          | error e => simp
    | other t => simp [flattenElems] at h

theorem groupLoopFlat_trace (ms : List MockInst) (env envf : ClassEnv)
    (tr : List (GroupKey × ResponseKwargs)) (g : Groups)
    (h : payloadTrace env ms = Except.ok (tr, envf)) :
    groupLoopFlat env g ms = Except.ok (foldPushAll g tr, envf) := by
  induction ms generalizing env tr g with
  | nil =>
    simp only [payloadTrace, Except.ok.injEq, Prod.mk.injEq] at h
    obtain ⟨h1, h2⟩ := h
    subst h1; subst h2
    rfl
  | cons m rest ih =>
    simp only [payloadTrace] at h
    cases hp : mkPayload env m with
    | error e => simp only [hp] at h; exact Except.noConfusion h
    | ok r =>
      obtain ⟨p, env'⟩ := r
      simp only [hp] at h
      cases htr : payloadTrace env' rest with
      | error e => simp only [htr] at h; exact Except.noConfusion h
      | ok r' =>
        obtain ⟨tr', envf'⟩ := r'
        simp only [htr] at h
        simp only [Except.ok.injEq, Prod.mk.injEq] at h
        obtain ⟨h1, h2⟩ := h
        subst h2
        simp only [groupLoopFlat, add_mock_to_group, hp]
        rw [← h1]
        simpa [foldPushAll] using ih env' tr' (pushGroup g (m.url, m.method) p) htr

theorem payloadTrace_keys (ms : List MockInst) (env envf : ClassEnv)
    (tr : List (GroupKey × ResponseKwargs))
    (h : payloadTrace env ms = Except.ok (tr, envf)) :
    tr.map Prod.fst = ms.map (fun m => ((m.url, m.method) : GroupKey)) := by
  induction ms generalizing env tr with
  | nil =>
    simp only [payloadTrace, Except.ok.injEq, Prod.mk.injEq] at h
    obtain ⟨h1, _⟩ := h
    subst h1; rfl
  | cons m rest ih =>
    simp only [payloadTrace] at h
    cases hp : mkPayload env m with
    | error e => simp only [hp] at h; exact Except.noConfusion h
    | ok r =>
      obtain ⟨p, env'⟩ := r
      simp only [hp] at h
      cases htr : payloadTrace env' rest with
      | error e => simp only [htr] at h; exact Except.noConfusion h
      | ok r' =>
        obtain ⟨tr', envf'⟩ := r'
        simp only [htr] at h
        simp only [Except.ok.injEq, Prod.mk.injEq] at h
        obtain ⟨h1, h2⟩ := h
        subst h2
        subst h1
        simpa using ih env' tr' htr

theorem payloadTrace_append (a b : List MockInst) (env envf : ClassEnv)
    (tr : List (GroupKey × ResponseKwargs))
    (h : payloadTrace env (a ++ b) = Except.ok (tr, envf)) :
    ∃ tra envm trb, payloadTrace env a = Except.ok (tra, envm) ∧
      payloadTrace envm b = Except.ok (trb, envf) ∧ tr = tra ++ trb := by
  induction a generalizing env tr with
  | nil =>
    exact ⟨[], env, tr, rfl, h, rfl⟩
  | cons m rest ih =>
    simp only [List.cons_append, payloadTrace] at h
    split at h
    · rename_i p env' hp
      split at h
      · rename_i tr' envf' htr
        simp only [Except.ok.injEq, Prod.mk.injEq] at h
        obtain ⟨h1, h2⟩ := h
        subst h2
        obtain ⟨tra, envm, trb, ha, hb, htr'⟩ := ih env' tr' htr
        refine ⟨((m.url, m.method), p) :: tra, envm, trb, ?_, hb, ?_⟩
        · simp [payloadTrace, hp, ha]
        · rw [← h1, htr']; rfl
      · exact Except.noConfusion h
    · exact Except.noConfusion h

theorem buildOutput_ok (g : Groups) (out : List MockConfiguration)
    (h : buildOutput g = Except.ok out) :
    out.map (fun c => ((c.url, some c.method) : Option String × Option String)) =
      g.map (fun e => (e.1.1, Option.map strUpper e.1.2)) ∧
    out.map (fun c => c.responses) =
      g.map (fun e => e.2.map ResponseKwargs.to_dict) := by
  induction g generalizing out with
  | nil =>
    simp only [buildOutput, Except.ok.injEq] at h
    subst h; simp
  | cons e rest ih =>
    obtain ⟨⟨url, method⟩, ks⟩ := e
    cases method with
    | none => simp [buildOutput] at h
    | some s =>
      simp only [buildOutput] at h
      cases hrest : buildOutput rest with
      | error e => rw [hrest] at h; simp at h
      | ok out' =>
        rw [hrest] at h
        simp only [Except.ok.injEq] at h
        subst h
        obtain ⟨ih1, ih2⟩ := ih out' hrest
        simp [ih1, ih2]

theorem utilsLoop_eq_flat (ms : List MockInst) (env : ClassEnv) (g : Groups) :
    Utils.groupLoop env g ms = groupLoopFlat env g ms := by
  induction ms generalizing env g with
  | nil => rfl
  | cons m rest ih =>
    simp only [Utils.groupLoop, groupLoopFlat, add_mock_to_group, mkPayload]
    cases MockInst.exc env m with
    | some e => simpa using ih env _
    | none =>
      cases MockInst.json env m with
      | ok r => obtain ⟨j, env'⟩ := r; simpa using ih env' _
      | error e => simp

theorem flattenElems_map_resp (ms : List MockInst) :
    flattenElems (ms.map PyElem.resp) = some ms := by
  induction ms with
  | nil => rfl
  | cons m rest ih => simp [flattenElems, ih]

/-! ## Concrete fixtures used by the claim theorems and witnesses -/

/-- A subtype with `default_json = {"a": 1}` (the C1 scenario). -/
def clsC1 : MockClass :=
  { name := "SubC1", url := some "https://example.com", method := some "GET",
    endpoint_name := some "SubC1", default_status_code := some 200,
    default_json := some (PyVal.dict [("a", PyVal.int 1)]),
    default_text := none, default_exc := none }

def envC1 : ClassEnv := fun _ => clsC1

/-- An instance of `clsC1` constructed with `partial_json={"b": 2}` and
no explicit `json`. -/
def instC1 : MockInst :=
  MockAPIResponse.init envC1 0 none none none none
    (some [("b", PyVal.int 2)]) none none none

/-- The merged body `{"a": 1, "b": 2}`. -/
def mergedC1 : PyVal := PyVal.dict [("a", PyVal.int 1), ("b", PyVal.int 2)]

/-- The class environment after evaluating `instC1.json`: the class-level
`default_json` of `clsC1` has been mutated to the merged dict. -/
def envC1After : ClassEnv :=
  setCls envC1 0 { clsC1 with default_json := some mergedC1 }

/-- C1 (code bug, evaluated at the failing input): with
`default_json = {"a":1}` and `partial_json = {"b":2}` and no explicit
`json`, the `json` property does return the merged body
`{"a":1,"b":2}`, but — contrary to the claim's copy semantics — the
subtype's class-level `default_json` is mutated in place to that merged
dict (`_default_json` returns the class attribute without copying and
`dict.update` mutates it), so it is no longer `{"a":1}` afterwards. -/
theorem C1_partial_json_merges_but_mutates_class_default :
    MockInst.json envC1 instC1 = Except.ok (some mergedC1, envC1After) ∧
    (envC1After 0).default_json = some mergedC1 ∧
    clsC1.default_json = some (PyVal.dict [("a", PyVal.int 1)]) ∧
    mergedC1 ≠ PyVal.dict [("a", PyVal.int 1)] := by
  refine ⟨rfl, rfl, rfl, ?_⟩
  intro hcontra
  rw [mergedC1] at hcontra
  injection hcontra with h
  simp at h

/-- C2: whenever the `exc` property of a definition is set (explicitly
or through the class default), the payload `add_mock_to_group` appends
for it is built with `text`, `status_code` and `json` all `None`, and
`ResponseKwargs.to_dict` turns it into the dict holding exactly the one
key `"exc"` — `text`, `status_code` and `json` are absent regardless of
what the definition also carries. -/
theorem C2_exc_payload_is_exactly_exc (env : ClassEnv) (grouped : Groups)
    (m : MockInst) (e : PyExc) (h : MockInst.exc env m = some e) :
    add_mock_to_group env grouped m =
      Except.ok (pushGroup grouped (m.url, m.method)
        { text := none, status_code := none, json := none, exc := some e }, env) ∧
    ResponseKwargs.to_dict
        { text := none, status_code := none, json := none, exc := some e } =
      [("exc", PayloadVal.ofExc e)] := by
  constructor
  · simp [add_mock_to_group, mkPayload, h]
  · rfl

/-- A subtype carrying defaults for every response field (C2 witness). -/
def clsC2 : MockClass :=
  { name := "SubC2", url := some "https://example.com/fail",
    method := some "GET", endpoint_name := some "SubC2",
    default_status_code := some 200,
    default_json := some (PyVal.dict [("ok", PyVal.bool true)]),
    default_text := some "hello", default_exc := none }

def envC2 : ClassEnv := fun _ => clsC2

/-- A definition that supplies text, status and json AND an exception. -/
def instC2 : MockInst :=
  MockAPIResponse.init envC2 0 none none (some 502) (some (PyVal.str "body"))
    none (some "text body") none (some ⟨"ConnectTimeout"⟩)

/-- Witness for C2 at a concrete definition that also carries text,
status_code and json values. -/
theorem C2_witness :
    MockInst.exc envC2 instC2 = some ⟨"ConnectTimeout"⟩ ∧
    add_mock_to_group envC2 [] instC2 =
      Except.ok ([((some "https://example.com/fail", some "GET"),
        [{ text := none, status_code := none, json := none,
           exc := some ⟨"ConnectTimeout"⟩ }])], envC2) ∧
    ResponseKwargs.to_dict
        { text := none, status_code := none, json := none,
          exc := some ⟨"ConnectTimeout"⟩ } =
      [("exc", PayloadVal.ofExc ⟨"ConnectTimeout"⟩)] := by
  refine ⟨rfl, ?_, ?_⟩
  · exact (C2_exc_payload_is_exactly_exc envC2 [] instC2 ⟨"ConnectTimeout"⟩ rfl).1
  · exact (C2_exc_payload_is_exactly_exc envC2 [] instC2 ⟨"ConnectTimeout"⟩ rfl).2

/-- C5: declaring a subtype whose `method` attribute is the integer
`200` (with a `url` attribute that passes its own, earlier check) fails
at declaration time (`__init_subclass__` runs the validator before any
instance exists) with the `TypeError` message identifying the attribute
`method`, the subtype name, the expected type `str`, the actual type
`int` and the value `200`; the attributes are checked in the fixed
insertion order of `expected_class_attribute_types` and the error is
raised at the first violation. -/
theorem C5_method_int_declaration_error (cls : RawClass)
    (hmethod : cls.method = AttrVal.vInt 200)
    (hurl : isinstance cls.url [PyType.tStr, PyType.tPattern] = true ∨
      cls.url = AttrVal.vNone) :
    initSubclass cls = Except.error
      (mkTypeErrorMsg "method" cls.name [PyType.tStr] (AttrVal.vInt 200)) := by
  have hgu : RawClass.getattr cls "url" = cls.url := rfl
  have hgm : RawClass.getattr cls "method" = cls.method := rfl
  have hcond1 : ¬(isinstance (RawClass.getattr cls "url")
      [PyType.tStr, PyType.tPattern] = false ∧
      RawClass.getattr cls "url" ≠ AttrVal.vNone) := by
    rw [hgu]
    rcases hurl with h | h
    · rintro ⟨hf, _⟩; rw [h] at hf; exact Bool.noConfusion hf
    · rintro ⟨_, hn⟩; exact hn h
  have hcond2 : isinstance (RawClass.getattr cls "method") [PyType.tStr] = false ∧
      RawClass.getattr cls "method" ≠ AttrVal.vNone := by
    rw [hgm, hmethod]
    exact ⟨rfl, by decide⟩
  have hva : validateAttrs cls expected_class_attribute_types =
      Except.error (mkTypeErrorMsg "method" cls.name [PyType.tStr] (AttrVal.vInt 200)) := by
    simp only [expected_class_attribute_types, validateAttrs]
    rw [if_neg hcond1, if_pos hcond2, hgm, hmethod]
  simp only [initSubclass, validate_class_attributes, hva]

/-- A concrete subtype declaration with `method = 200` (C5 witness). -/
def rawC5 : RawClass :=
  { name := "MySubclass", url := AttrVal.vStr "https://example.com",
    method := AttrVal.vInt 200, endpoint_name := AttrVal.vNone,
    default_status_code := AttrVal.vNone, default_text := AttrVal.vNone,
    default_exc := AttrVal.vNone }

/-- Witness for C5: the concrete declaration fails with the exact
message of the claim. -/
theorem C5_witness :
    initSubclass rawC5 = Except.error
      "The `method` attribute in subclass `MySubclass` must be of type `str`, got `int`: `200`." :=
  C5_method_int_declaration_error rawC5 rfl (Or.inl rfl)

/-- C7 (amended): the `status_code` property returns the explicitly
passed value when that value is non-zero; an explicit `0` — being falsy
under Python `or` — and an absent value both fall back to the class's
`default_status_code` (which may itself be `None`). -/
theorem C7_status_code_resolution (env : ClassEnv) (m : MockInst) :
    (∀ n : Int, m._status_code = some n → n ≠ 0 →
      MockInst.status_code env m = some n) ∧
    (m._status_code = some 0 →
      MockInst.status_code env m = (env m.clsId).default_status_code) ∧
    (m._status_code = none →
      MockInst.status_code env m = (env m.clsId).default_status_code) := by
  refine ⟨?_, ?_, ?_⟩
  · intro n hn hnz
    simp [MockInst.status_code, hn, hnz]
  · intro h0
    simp [MockInst.status_code, h0]
  · intro h0
    simp [MockInst.status_code, h0]

/-- A subtype with `default_status_code = 404` (C7 scenario). -/
def clsC7 : MockClass :=
  { name := "SubC7", url := some "https://example.com", method := some "GET",
    endpoint_name := some "SubC7", default_status_code := some 404,
    default_json := none, default_text := none, default_exc := none }

def envC7 : ClassEnv := fun _ => clsC7

/-- An instance of `clsC7` constructed with the explicit argument
`status_code=0`. -/
def instC7 : MockInst :=
  MockAPIResponse.init envC7 0 none none (some 0) none none none none none

/-- Counterexample to C7 as stated: this instance was constructed with
an explicit `status_code` of `0`, yet the property returns the class
default `404`, because the implementation uses Python `or` and `0` is
falsy. -/
theorem C7_counterexample :
    instC7._status_code = some 0 ∧
    MockInst.status_code envC7 instC7 = some 404 ∧
    (some (404 : Int) ≠ some (0 : Int)) :=
  ⟨rfl, rfl, by decide⟩

/-- Witness for C7: a non-zero explicit status code is returned as-is. -/
theorem C7_witness :
    MockInst.status_code envC7
      (MockAPIResponse.init envC7 0 none none (some 201) none none none none none) =
      some 201 :=
  (C7_status_code_resolution envC7
    (MockAPIResponse.init envC7 0 none none (some 201) none none none none none)).1
    201 rfl (by decide)

/-! ## Lemmas about the response registry -/

theorem dictInsert_fresh {α β : Type} [DecidableEq α]
    (reg : List (α × β)) (k : α) (v : β) (h : k ∉ reg.map Prod.fst) :
    dictInsert reg k v = reg ++ [(k, v)] := by
  induction reg with
  | nil => rfl
  | cons hd tl ih =>
    obtain ⟨k0, v0⟩ := hd
    simp only [List.map_cons, List.mem_cons] at h
    push_neg at h
    obtain ⟨h1, h2⟩ := h
    have h1' : k0 ≠ k := fun he => h1 he.symm
    simp [dictInsert, h1', ih h2]

theorem registry_foldl_eq (rs : List MockInst) (reg : List (Option String × MockInst))
    (hdisj : ∀ r ∈ rs, r.endpoint_name ∉ reg.map Prod.fst)
    (hnodup : (rs.map MockInst.endpoint_name).Nodup) :
    rs.foldl (fun acc r => dictInsert acc r.endpoint_name r) reg =
      reg ++ rs.map (fun r => (r.endpoint_name, r)) := by
  induction rs generalizing reg with
  | nil => simp
  | cons r rest ih =>
    simp only [List.foldl_cons]
    rw [dictInsert_fresh reg r.endpoint_name r (hdisj r (List.mem_cons_self r rest))]
    rw [ih (reg ++ [(r.endpoint_name, r)])]
    · simp
    · intro q hq
      simp only [List.map_append, List.mem_append, List.map_cons, List.map_nil]
      rintro (hmem | hsingle)
      · exact hdisj q (List.mem_cons_of_mem r hq) hmem
      · simp only [List.mem_singleton] at hsingle
        simp only [List.map_cons, List.nodup_cons] at hnodup
        exact hnodup.1 (hsingle ▸ List.mem_map_of_mem MockInst.endpoint_name hq)
    · simp only [List.map_cons, List.nodup_cons] at hnodup
      exact hnodup.2

theorem alookup_map_self (rs : List MockInst) (r : MockInst)
    (hnodup : (rs.map MockInst.endpoint_name).Nodup) (hr : r ∈ rs) :
    alookup (rs.map (fun q => (q.endpoint_name, q))) r.endpoint_name = some r := by
  induction rs with
  | nil => simp at hr
  | cons hd tl ih =>
    simp only [List.map_cons, List.nodup_cons] at hnodup
    rcases List.mem_cons.mp hr with heq | hmem
    · subst heq
      simp [alookup]
    · have hne : hd.endpoint_name ≠ r.endpoint_name := by
        intro he
        exact hnodup.1 (he ▸ List.mem_map_of_mem MockInst.endpoint_name hmem)
      simp only [List.map_cons, alookup, if_neg hne]
      exact ih hnodup.2 hmem

theorem alookup_map_none (rs : List MockInst) (name : Option String)
    (hname : name ∉ rs.map MockInst.endpoint_name) :
    alookup (rs.map (fun q => (q.endpoint_name, q))) name = none := by
  induction rs with
  | nil => rfl
  | cons hd tl ih =>
    simp only [List.map_cons, List.mem_cons] at hname
    push_neg at hname
    have hne : hd.endpoint_name ≠ name := fun he => hname.1 he.symm
    simp only [List.map_cons, alookup, if_neg hne]
    exact ih hname.2

/-- C9 (amended: for input lists whose endpoint names are pairwise
distinct): looking up a contained endpoint name returns the original
definition object, looking up an unknown endpoint name raises `KeyError`
(modelled as `none`), and iterating the set yields the definitions in
input order.  Without the distinctness hypothesis the registry dict
collapses duplicate names (see the counterexample). -/
theorem C9_mockset_contract (rs : List MockInst)
    (matchers : List (Option String × String))
    (hnodup : (rs.map MockInst.endpoint_name).Nodup) :
    (∀ r ∈ rs, RequestsMockSet.getitem (RequestsMockSet.mkSet rs matchers)
      r.endpoint_name = some r) ∧
    (∀ name, name ∉ rs.map MockInst.endpoint_name →
      RequestsMockSet.getitem (RequestsMockSet.mkSet rs matchers) name = none) ∧
    RequestsMockSet.iterate (RequestsMockSet.mkSet rs matchers) = rs := by
  have hreg : (RequestsMockSet.mkSet rs matchers).response_registry =
      rs.map (fun r => (r.endpoint_name, r)) := by
    have := registry_foldl_eq rs [] (by simp) hnodup
    simpa [RequestsMockSet.mkSet] using this
  refine ⟨?_, ?_, ?_⟩
  · intro r hr
    rw [RequestsMockSet.getitem, hreg]
    exact alookup_map_self rs r hnodup hr
  · intro name hname
    rw [RequestsMockSet.getitem, hreg]
    exact alookup_map_none rs name hname
  · rw [RequestsMockSet.iterate, hreg, List.map_map]
    exact List.map_id' rs

/-- Two definitions sharing the endpoint name `"X"` but differing in
URL (C9 counterexample). -/
def instC9a : MockInst :=
  ⟨0, some "https://a", some "GET", some "X", none, none, none, none, none⟩

def instC9b : MockInst :=
  ⟨0, some "https://b", some "GET", some "X", none, none, none, none, none⟩

/-- Counterexample to C9 as stated: with two definitions sharing an
endpoint name, the registry dict keeps only one entry, so iterating the
set does not yield the definitions in input order (it yields one
element instead of two). -/
theorem C9_counterexample :
    RequestsMockSet.iterate (RequestsMockSet.mkSet [instC9a, instC9b] []) ≠
      [instC9a, instC9b] :=
  fun h => absurd (congrArg List.length h) (by decide)

/-- A definition with the distinct endpoint name `"Y"` (C9 witness). -/
def instC9c : MockInst :=
  ⟨0, some "https://a", some "GET", some "Y", none, none, none, none, none⟩

/-- Witness for C9 on a concrete two-element list with distinct
endpoint names. -/
theorem C9_witness :
    RequestsMockSet.getitem (RequestsMockSet.mkSet [instC9a, instC9c] [])
      (some "X") = some instC9a ∧
    RequestsMockSet.getitem (RequestsMockSet.mkSet [instC9a, instC9c] [])
      (some "Z") = none ∧
    RequestsMockSet.iterate (RequestsMockSet.mkSet [instC9a, instC9c] []) =
      [instC9a, instC9c] := by
  have h := C9_mockset_contract [instC9a, instC9c] [] (by decide)
  exact ⟨h.1 instC9a (List.mem_cons_self _ _), h.2.1 (some "Z") (by decide), h.2.2⟩

theorem addKeys_nil (ks : List GroupKey) : addKeys [] ks = firstSeen ks := by
  rw [addKeys_eq]
  simp

/-- C3: on a valid (possibly one-level-nested) input, the grouping loop
of `group_by_url` produces exactly the replay of the flattened input's
payload trace, and the payload list of every `(url, method)` group is
the in-order sublist of that trace belonging to the group — i.e. the
payloads appear in exactly the order their definitions appeared in the
flattened input; moreover the output records hold those group lists,
converted by `to_dict`, unchanged in order. -/
theorem C3_group_order_preserving (env envf : ClassEnv) (elems : List PyElem)
    (ms : List MockInst) (tr : List (GroupKey × ResponseKwargs)) (k : GroupKey)
    (hflat : flattenElems elems = some ms)
    (htr : payloadTrace env ms = Except.ok (tr, envf)) :
    groupLoop env [] elems = Except.ok (foldPushAll [] tr, envf) ∧
    lookupGroup (foldPushAll [] tr) k =
      (tr.filter (fun e => decide (e.1 = k))).map Prod.snd ∧
    (∀ out, buildOutput (foldPushAll [] tr) = Except.ok out →
      out.map (fun c => c.responses) =
        (foldPushAll [] tr).map (fun e => e.2.map ResponseKwargs.to_dict)) := by
  refine ⟨?_, ?_, ?_⟩
  · rw [groupLoop_of_flatten elems ms env [] hflat]
    exact groupLoopFlat_trace ms env envf tr [] htr
  · simpa using lookupGroup_foldPushAll tr [] k
  · intro out hout
    exact (buildOutput_ok (foldPushAll [] tr) out hout).2

/-- A subtype used by the grouping fixtures. -/
def clsC3 : MockClass :=
  { name := "SubC3", url := some "https://u", method := some "GET",
    endpoint_name := some "SubC3", default_status_code := some 200,
    default_json := none, default_text := none, default_exc := none }

def envC3 : ClassEnv := fun _ => clsC3

/-- `A(url=u, method=GET, json=1)` of the spec's grouping example. -/
def mA : MockInst :=
  ⟨0, some "https://u", some "GET", some "A", none, none, some (PyVal.int 1),
    none, none⟩

/-- `B(url=u2)` of the spec's grouping example. -/
def mB : MockInst :=
  ⟨0, some "https://u2", some "GET", some "B", none, none, some (PyVal.int 7),
    none, none⟩

/-- `A'(url=u, method=GET, json=2)` of the spec's grouping example. -/
def mA2 : MockInst :=
  ⟨0, some "https://u", some "GET", some "A2", none, none, some (PyVal.int 2),
    none, none⟩

def pA : ResponseKwargs :=
  { text := none, status_code := some 200, json := some (PyVal.int 1), exc := none }

def pB : ResponseKwargs :=
  { text := none, status_code := some 200, json := some (PyVal.int 7), exc := none }

def pA2 : ResponseKwargs :=
  { text := none, status_code := some 200, json := some (PyVal.int 2), exc := none }

/-- The input `[A, [B], A']`, with `B` inside a nested list. -/
def elemsC3 : List PyElem :=
  [PyElem.resp mA, PyElem.listE [PyElem.resp mB], PyElem.resp mA2]

/-- The payload trace of the flattened input `[A, B, A']`. -/
def trC3 : List (GroupKey × ResponseKwargs) :=
  [((some "https://u", some "GET"), pA),
   ((some "https://u2", some "GET"), pB),
   ((some "https://u", some "GET"), pA2)]

/-- Witness for C3: the nested input `[A, [B], A']` flattens in order,
and the `(u, GET)` group holds `[payload of A, payload of A']` in that
order. -/
theorem C3_witness :
    flattenElems elemsC3 = some [mA, mB, mA2] ∧
    payloadTrace envC3 [mA, mB, mA2] = Except.ok (trC3, envC3) ∧
    lookupGroup (foldPushAll [] trC3) (some "https://u", some "GET") =
      [pA, pA2] := by
  refine ⟨rfl, rfl, ?_⟩
  exact ((C3_group_order_preserving envC3 envC3 elemsC3 [mA, mB, mA2] trC3
    (some "https://u", some "GET") rfl rfl).2.1).trans rfl

/-- C4: the records returned by `group_by_url` appear in first-seen
order of their `(url, method)` group key in the flattened input — each
output record's key is the corresponding entry of `firstSeen` applied
to the flattened input's key sequence (with the method upper-cased for
output only). -/
theorem C4_first_seen_group_order (env envf envf2 : ClassEnv) (elems : List PyElem)
    (ms : List MockInst) (tr : List (GroupKey × ResponseKwargs))
    (out : List MockConfiguration)
    (hflat : flattenElems elems = some ms)
    (htr : payloadTrace env ms = Except.ok (tr, envf))
    (hrun : HttpUtils.group_by_url env elems = Except.ok (out, envf2)) :
    out.map (fun c => ((c.url, some c.method) : GroupKey)) =
      (firstSeen (ms.map (fun m => ((m.url, m.method) : GroupKey)))).map
        (fun k => (k.1, Option.map strUpper k.2)) := by
  have hloop : groupLoop env [] elems = Except.ok (foldPushAll [] tr, envf) := by
    rw [groupLoop_of_flatten elems ms env [] hflat]
    exact groupLoopFlat_trace ms env envf tr [] htr
  have hbuild : buildOutput (foldPushAll [] tr) = Except.ok out := by
    unfold HttpUtils.group_by_url at hrun
    simp only [hloop] at hrun
    cases hb : buildOutput (foldPushAll [] tr) with
    | error e => simp only [hb] at hrun; exact Except.noConfusion hrun
    | ok out' =>
      simp only [hb] at hrun
      simp only [Except.ok.injEq, Prod.mk.injEq] at hrun
      rw [hrun.1]
  have hkeys : (foldPushAll [] tr).map Prod.fst =
      firstSeen (ms.map (fun m => ((m.url, m.method) : GroupKey))) := by
    rw [keys_foldPushAll]
    simp only [List.map_nil]
    rw [addKeys_nil, payloadTrace_keys ms env envf tr htr]
  have hout := (buildOutput_ok (foldPushAll [] tr) out hbuild).1
  rw [hout, ← hkeys, List.map_map]
  rfl

/-- The records `group_by_url` returns for `elemsC3`. -/
def outC4 : List MockConfiguration :=
  [{ url := some "https://u", method := "GET",
     responses := [pA.to_dict, pA2.to_dict] },
   { url := some "https://u2", method := "GET",
     responses := [pB.to_dict] }]

/-- Witness for C4 on the concrete input `[A, [B], A']`: groups come
out in the order (u, GET), (u2, GET) — the first-seen order. -/
theorem C4_witness :
    outC4.map (fun c => ((c.url, some c.method) : GroupKey)) =
      (firstSeen ([mA, mB, mA2].map (fun m => ((m.url, m.method) : GroupKey)))).map
        (fun k => (k.1, Option.map strUpper k.2)) :=
  C4_first_seen_group_order envC3 envC3 envC3 elemsC3 [mA, mB, mA2] trC3 outC4
    rfl rfl rfl

/-- C10: the legacy `utils.group_by_url` and the current
`http_utils.group_by_url` agree on every flat input list: wrapping each
definition as a plain (non-nested) element gives the same result,
including the threaded class environment. -/
theorem C10_utils_equals_http_on_flat (env : ClassEnv) (api_mocks : List MockInst) :
    Utils.group_by_url env api_mocks =
      HttpUtils.group_by_url env (api_mocks.map PyElem.resp) := by
  unfold Utils.group_by_url HttpUtils.group_by_url
  rw [utilsLoop_eq_flat, groupLoop_of_flatten (api_mocks.map PyElem.resp)
    api_mocks env [] (flattenElems_map_resp api_mocks)]

theorem groupLoop_append (a b : List PyElem) (env : ClassEnv) (g : Groups) :
    groupLoop env g (a ++ b) =
      match groupLoop env g a with
      | Except.ok (g', env') => groupLoop env' g' b
      | Except.error e => Except.error e := by
  induction a generalizing env g with
  | nil => simp [groupLoop]
  | cons e rest ih =>
    cases e with
    | resp m =>
      simp only [List.cons_append, groupLoop]
      cases add_mock_to_group env g m with
      | ok r => obtain ⟨g', env'⟩ := r; simpa using ih env' g'
      | error e => simp
    | listE ns =>
      simp only [List.cons_append, groupLoop]
      cases groupLoopNested env g ns with
      | ok r => obtain ⟨g', env'⟩ := r; simpa using ih env' g'
      | error e => simp
    | other t => simp [List.cons_append, groupLoop]

theorem groupLoopNested_bad (gns : List MockInst) (nbad : PyElem)
    (nrest : List PyElem) (env envf : ClassEnv) (g gf : Groups)
    (hloop : groupLoopFlat env g gns = Except.ok (gf, envf))
    (hnbad : PyElem.isResp nbad = false) :
    groupLoopNested env g (gns.map PyElem.resp ++ nbad :: nrest) =
      Except.error ("Unsupported mock definition type: " ++ PyElem.typeRepr nbad) := by
  induction gns generalizing env g with
  | nil =>
    cases nbad with
    | resp m => simp [PyElem.isResp] at hnbad
    | listE ns => rfl
    | other t => rfl
  | cons m rest ih =>
    simp only [List.map_cons, List.cons_append, groupLoopNested]
    simp only [groupLoopFlat] at hloop
    cases hadd : add_mock_to_group env g m with
    | error e => simp only [hadd] at hloop; exact Except.noConfusion hloop
    | ok r =>
      obtain ⟨g', env'⟩ := r
      simp only [hadd] at hloop
      simpa using ih env' g' hloop

/-- C6 (amended): if the input contains an element that is neither a
definition nor a list of definitions — either at top level or inside a
nested list, possibly after some valid nested definitions — and all the
definitions processed before that element evaluate their payloads
without error, then `group_by_url` raises the `ValueError` whose
message names the unexpected element's type, and no grouping result is
returned.  (Without the payload-evaluation proviso an earlier
`AttributeError` from the `json` property can pre-empt the
`ValueError`; see the counterexample.) -/
theorem C6_bad_element_raises (env envf : ClassEnv) (pre suf nrest : List PyElem)
    (ms gns : List MockInst) (bad nbad : PyElem)
    (tr : List (GroupKey × ResponseKwargs))
    (hflat : flattenElems pre = some ms)
    (htr : payloadTrace env (ms ++ gns) = Except.ok (tr, envf))
    (hbad : (bad = PyElem.other (PyElem.typeRepr nbad) ∧ PyElem.isResp nbad = false) ∨
      (bad = PyElem.listE (gns.map PyElem.resp ++ nbad :: nrest) ∧
        PyElem.isResp nbad = false)) :
    HttpUtils.group_by_url env (pre ++ bad :: suf) =
      Except.error ("Unsupported mock definition type: " ++ PyElem.typeRepr nbad) := by
  obtain ⟨tra, envm, trb, hta, htb, htreq⟩ :=
    payloadTrace_append ms gns env envf tr htr
  have hpre : groupLoop env [] pre = Except.ok (foldPushAll [] tra, envm) := by
    rw [groupLoop_of_flatten pre ms env [] hflat]
    exact groupLoopFlat_trace ms env envm tra [] hta
  have hflatloop : groupLoopFlat envm (foldPushAll [] tra) gns =
      Except.ok (foldPushAll (foldPushAll [] tra) trb, envf) :=
    groupLoopFlat_trace gns envm envf trb (foldPushAll [] tra) htb
  have hbadloop : groupLoop envm (foldPushAll [] tra) (bad :: suf) =
      Except.error ("Unsupported mock definition type: " ++ PyElem.typeRepr nbad) := by
    rcases hbad with ⟨hb, hnr⟩ | ⟨hb, hnr⟩
    · subst hb
      rfl
    · subst hb
      simp only [groupLoop]
      rw [groupLoopNested_bad gns nbad nrest envm envf (foldPushAll [] tra) _
        hflatloop hnr]
  unfold HttpUtils.group_by_url
  rw [groupLoop_append pre (bad :: suf) env []]
  simp only [hpre]
  rw [hbadloop]

/-- A subtype whose `default_json` is `None` (C6 counterexample). -/
def clsC6 : MockClass :=
  { name := "SubC6", url := some "https://c6", method := some "GET",
    endpoint_name := some "SubC6", default_status_code := some 200,
    default_json := none, default_text := none, default_exc := none }

def envC6 : ClassEnv := fun _ => clsC6

/-- An instance of `clsC6` with a partial overlay but no default body:
evaluating its `json` property raises `AttributeError`. -/
def brokenC6 : MockInst :=
  MockAPIResponse.init envC6 0 none none none none
    (some [("b", PyVal.int 2)]) none none none

/-- Counterexample to C6 as stated: this input does contain an element
of an unsupported type (the `int` in second position), yet
`group_by_url` raises the `AttributeError` coming from the first
definition's `json` property, not the `ValueError` describing the
unexpected type. -/
theorem C6_counterexample :
    HttpUtils.group_by_url envC6 [PyElem.resp brokenC6, PyElem.other "int"] =
      Except.error "AttributeError: NoneType has no attribute update" ∧
    ("AttributeError: NoneType has no attribute update" ≠
      "Unsupported mock definition type: int") :=
  ⟨rfl, by decide⟩

/-- The payload trace of `[mA]` alone (C6 witness). -/
def trC6 : List (GroupKey × ResponseKwargs) :=
  [((some "https://u", some "GET"), pA)]

/-- Witness for C6: a valid definition followed by an `int` element
makes `group_by_url` fail with the `ValueError` naming `int`. -/
theorem C6_witness :
    HttpUtils.group_by_url envC3 [PyElem.resp mA, PyElem.other "int"] =
      Except.error "Unsupported mock definition type: int" :=
  C6_bad_element_raises envC3 envC3 [PyElem.resp mA] [] [] [mA] []
    (PyElem.other "int") (PyElem.other "int") trC6 rfl rfl (Or.inl ⟨rfl, rfl⟩)

/-- C8: the grouping key is the raw `(url, method)` pair — the method
string exactly as given — and the method is upper-cased only in the
output record.  Two definitions with the same URL whose methods differ
only in letter case therefore produce two distinct records, both
carrying the same upper-cased method. -/
theorem C8_raw_method_key_two_groups (env env1 env2 : ClassEnv) (m1 m2 : MockInst)
    (u : Option String) (s1 s2 : String) (p1 p2 : ResponseKwargs)
    (hu1 : m1.url = u) (hu2 : m2.url = u)
    (hm1 : m1.method = some s1) (hm2 : m2.method = some s2)
    (hne : s1 ≠ s2) (hcase : strUpper s1 = strUpper s2)
    (hp1 : mkPayload env m1 = Except.ok (p1, env1))
    (hp2 : mkPayload env1 m2 = Except.ok (p2, env2)) :
    HttpUtils.group_by_url env [PyElem.resp m1, PyElem.resp m2] =
      Except.ok ([{ url := u, method := strUpper s1, responses := [p1.to_dict] },
                  { url := u, method := strUpper s1, responses := [p2.to_dict] }],
        env2) := by
  have hkey : ¬(((u, some s1) : GroupKey) = (u, some s2)) := by
    intro h
    apply hne
    have h2 := congrArg Prod.snd h
    simpa using h2
  have hloop : groupLoop env [] [PyElem.resp m1, PyElem.resp m2] =
      Except.ok ([((u, some s1), [p1]), ((u, some s2), [p2])], env2) := by
    simp only [groupLoop, add_mock_to_group, hp1, hp2, hu1, hu2, hm1, hm2]
    simp [pushGroup, hkey]
  unfold HttpUtils.group_by_url
  rw [hloop]
  simp only [buildOutput]
  rw [← hcase]
  rfl

/-- A definition with method `"get"` (C8 witness). -/
def mC8a : MockInst :=
  ⟨0, some "https://x", some "get", some "C8a", none, none, some (PyVal.int 1),
    none, none⟩

/-- A definition with method `"GET"` at the same URL (C8 witness). -/
def mC8b : MockInst :=
  ⟨0, some "https://x", some "GET", some "C8b", none, none, some (PyVal.int 2),
    none, none⟩

/-- Witness for C8: `"get"` and `"GET"` at the same URL yield two
records, both with method `"GET"`. -/
theorem C8_witness :
    HttpUtils.group_by_url envC3 [PyElem.resp mC8a, PyElem.resp mC8b] =
      Except.ok ([{ url := some "https://x", method := "GET",
                    responses := [pA.to_dict] },
                  { url := some "https://x", method := "GET",
                    responses := [pA2.to_dict] }], envC3) :=
  C8_raw_method_key_two_groups envC3 envC3 envC3 mC8a mC8b
    (some "https://x") "get" "GET" pA pA2 rfl rfl rfl rfl
    (by decide) rfl rfl rfl
